import Mathlib

/-!
Shallow embedding of the Outlook MCP CLI client
(`src/scripts/cli.ts`, modules `cli.ts` and `mcp-client.ts`).

Strings are modelled as `List Char` (a JavaScript string is a sequence of
code units; the texts handled here are plain Unicode scalar sequences).
JavaScript objects whose fields are JSON-serializable are modelled as
association lists from field names to values; an `undefined` field is an
absent entry.

The cache utility (`@local/plugin-cache`: `PluginCache`, `createCacheKey`,
`TTL`) is an external collaborator of the repository; its behaviour is
modelled from the spec's consumed contract (spec section 4.3).  Everything
else is translated from the TypeScript source.
-/

/-- A cache key, as produced by `createCacheKey` or given literally. -/
abbrev Key := List Char

/-- Case conversion used by `text.toLowerCase()` in the classifier. -/
def lowerChars (s : List Char) : List Char := s.map Char.toLower

/-- Boolean substring test, `s.includes(pat)` on JavaScript strings. -/
def containsSub (s pat : List Char) : Bool := decide (pat <:+: s)

/-- Detects auth-related errors from MCP server responses
(`isAuthError` in `mcp-client.ts`): lower-case the text, then test the
thirteen hard-coded vocabulary substrings, in source order. -/
def isAuthError (text : List Char) : Bool :=
  let lower := lowerChars text
  containsSub lower "no valid token".data ||
  containsSub lower "token expired".data ||
  containsSub lower "unauthorized".data ||
  containsSub lower "401".data ||
  containsSub lower "invalid_grant".data ||
  containsSub lower "interaction_required".data ||
  containsSub lower "login required".data ||
  containsSub lower "unauthenticated".data ||
  containsSub lower "invalidauthenticationtoken".data ||
  containsSub lower "lifetimevalidationfailed".data ||
  containsSub lower "compacttoken".data ||
  containsSub lower "authorization_identitynotfound".data ||
  containsSub lower "silent token acquisition failed".data

/-- The fixed authentication-failure vocabulary of `isAuthError`,
in the order the source tests it. -/
def authVocabulary : List (List Char) :=
  ["no valid token".data, "token expired".data, "unauthorized".data,
   "401".data, "invalid_grant".data, "interaction_required".data,
   "login required".data, "unauthenticated".data,
   "invalidauthenticationtoken".data, "lifetimevalidationfailed".data,
   "compacttoken".data, "authorization_identitynotfound".data,
   "silent token acquisition failed".data]

/-- Decimal rendering of a number value, as JSON serialization prints it. -/
def natChars (n : Nat) : List Char := (Nat.repr n).data

/-- Lexicographic comparison of character sequences by code point,
used to give cache-key fields a stable order. -/
def charListLe : List Char → List Char → Bool
  | [], _ => true
  | _ :: _, [] => false
  | x :: xs, y :: ys =>
    if x.toNat = y.toNat then charListLe xs ys else decide (x.toNat < y.toNat)

/-- Propositional form of `charListLe`, the relation the field sort uses. -/
def KeyFieldLe (a b : List Char) : Prop := charListLe a b = true

instance : DecidableRel KeyFieldLe := fun a b => by
  unfold KeyFieldLe; infer_instance

/-- Modelled from the spec: `createCacheKey` of the external cache utility
derives a key from an operation name and a normalized argument object,
with stable key ordering and omission of undefined fields.  A field with
value `none` (JavaScript `undefined`) is dropped; the remaining fields are
rendered `name=value`, sorted, joined with commas, and prefixed with the
operation name and a colon. -/
def createCacheKey (op : List Char) (fields : List (List Char × Option (List Char))) : Key :=
  op ++ ':' ::
    (List.intercalate [',']
      (List.insertionSort KeyFieldLe
        (fields.filterMap (fun f => f.2.map (fun v => f.1 ++ '=' :: v)))))

/-- One memoized entry of the external TTL cache: the produced value, the
time it was stored, and its time-to-live in milliseconds. -/
structure CacheEntry (V : Type) where
  value : V
  createdAt : Nat
  ttl : Nat

/-- The cache store: an association from keys to entries. -/
abbrev Cache (V : Type) := List (Key × CacheEntry V)

/-- Modelled from the spec: `TTL` duration constants of the external cache
utility, in milliseconds, matching the spec's three tiers. -/
def TTL_FIVE_MINUTES : Nat := 5 * 60 * 1000

/-- Modelled from the spec: the fifteen-minute `TTL` tier, in milliseconds. -/
def TTL_FIFTEEN_MINUTES : Nat := 15 * 60 * 1000

/-- Modelled from the spec: the one-hour `TTL` tier, in milliseconds. -/
def TTL_HOUR : Nat := 60 * 60 * 1000

/-- Modelled from the spec: `cache.invalidate(key)` removes the entry
stored under exactly that key. -/
def cacheInvalidate {V : Type} (k : Key) (c : Cache V) : Cache V :=
  c.filter (fun kv => !(kv.1 == k))

/-- Modelled from the spec: `cache.invalidatePattern(regex)` removes every
entry whose key matches.  Every pattern the client passes is an anchored
literal `^lit`, so matching is `lit.isPrefixOf key`. -/
def invalidateByAnchor {V : Type} (lit : Key) (c : Cache V) : Cache V :=
  c.filter (fun kv => !(List.isPrefixOf lit kv.1))

/-- Modelled from the spec: a fresh cached value for `key` at time `now`
(present and not expired), or `none`. -/
def lookupFresh {V : Type} (now : Nat) (c : Cache V) (k : Key) : Option V :=
  match List.lookup k c with
  | some e => if now < e.createdAt + e.ttl then some e.value else none
  | none => none

/-- Modelled from the spec: read-through `getOrFetch(key, producer,
opts)`.  If `bypassCache` is set or caching is globally disabled, the
producer is invoked and nothing is stored; otherwise a fresh cached value
is returned, and on miss or expiry the producer is invoked once and its
result stored with the given TTL.  Returns the value, the updated store,
and whether the producer was invoked. -/
def getOrFetch {V : Type} (enabled bypassCache : Bool) (now : Nat) (c : Cache V)
    (k : Key) (ttl : Nat) (produce : V) : V × Cache V × Bool :=
  if bypassCache || !enabled then (produce, c, true)
  else
    match lookupFresh now c k with
    | some v => (v, c, false)
    | none => (produce, (k, ⟨produce, now, ttl⟩) :: c, true)

/-- A cached read of the client: every read method calls
`cache.getOrFetch(cacheKey, producer, ttl, bypassCache setting)` with
`bypassCache := this.cacheDisabled`, and `disableCache`/`enableCache`
toggle the global cache switch together with that flag. -/
def clientRead {V : Type} (cacheDisabled : Bool) (now : Nat) (c : Cache V)
    (k : Key) (ttl : Nat) (produce : V) : V × Cache V × Bool :=
  getOrFetch (!cacheDisabled) cacheDisabled now c k ttl produce

/-- The cache invalidations fired by `sendMail` after a successful tool
call: `invalidatePattern(^mail_messages)`. -/
def sendMailInvalidate {V : Type} (c : Cache V) : Cache V :=
  invalidateByAnchor "mail_messages".data c

/-- The cache key `createCacheKey("mail_message", lbrace id: messageId rbrace)`
used by `getMailMessage` and invalidated by move/delete. -/
def getMailMessageKey (messageId : List Char) : Key :=
  createCacheKey "mail_message".data [("id".data, some messageId)]

/-- The cache invalidations fired by `moveMailMessage`:
`^mail_messages`, `^folder_messages`, and the moved message's detail key. -/
def moveMailMessageInvalidate {V : Type} (messageId : List Char) (c : Cache V) : Cache V :=
  cacheInvalidate (getMailMessageKey messageId)
    (invalidateByAnchor "folder_messages".data
      (invalidateByAnchor "mail_messages".data c))

/-- The cache invalidations fired by `deleteMailMessage` (same set as a
move: `^mail_messages`, `^folder_messages`, and the message detail key). -/
def deleteMailMessageInvalidate {V : Type} (messageId : List Char) (c : Cache V) : Cache V :=
  cacheInvalidate (getMailMessageKey messageId)
    (invalidateByAnchor "folder_messages".data
      (invalidateByAnchor "mail_messages".data c))

/-- The cache key used by `getCalendarEvent` and invalidated by event
update/delete: `createCacheKey("calendar_event", lbrace id, calendarId rbrace)`. -/
def getCalendarEventKey (eventId : List Char) (calendarId : Option (List Char)) : Key :=
  createCacheKey "calendar_event".data
    [("id".data, some eventId), ("calendarId".data, calendarId)]

/-- The cache invalidations fired by `createCalendarEvent`:
`^calendar_events` and `^calendar_view`. -/
def createCalendarEventInvalidate {V : Type} (c : Cache V) : Cache V :=
  invalidateByAnchor "calendar_view".data
    (invalidateByAnchor "calendar_events".data c)

/-- The cache invalidations fired by `updateCalendarEvent`:
`^calendar_events`, `^calendar_view`, and the event's detail key. -/
def updateCalendarEventInvalidate {V : Type} (eventId : List Char)
    (calendarId : Option (List Char)) (c : Cache V) : Cache V :=
  cacheInvalidate (getCalendarEventKey eventId calendarId)
    (invalidateByAnchor "calendar_view".data
      (invalidateByAnchor "calendar_events".data c))

/-- The cache invalidations fired by `deleteCalendarEvent` (same set as an
update). -/
def deleteCalendarEventInvalidate {V : Type} (eventId : List Char)
    (calendarId : Option (List Char)) (c : Cache V) : Cache V :=
  cacheInvalidate (getCalendarEventKey eventId calendarId)
    (invalidateByAnchor "calendar_view".data
      (invalidateByAnchor "calendar_events".data c))

/-- `sendMail`: awaits the tool call, and only on success fires its
invalidations; a thrown error propagates with the cache untouched. -/
def sendMailRun {V : Type} (call : Except (List Char) V) (c : Cache V) :
    Except (List Char) V × Cache V :=
  match call with
  | .error e => (.error e, c)
  | .ok v => (.ok v, sendMailInvalidate c)

/-- `moveMailMessage`: invalidations fire only after a successful call. -/
def moveMailMessageRun {V : Type} (messageId : List Char)
    (call : Except (List Char) V) (c : Cache V) :
    Except (List Char) V × Cache V :=
  match call with
  | .error e => (.error e, c)
  | .ok v => (.ok v, moveMailMessageInvalidate messageId c)

/-- `deleteMailMessage`: invalidations fire only after a successful call. -/
def deleteMailMessageRun {V : Type} (messageId : List Char)
    (call : Except (List Char) V) (c : Cache V) :
    Except (List Char) V × Cache V :=
  match call with
  | .error e => (.error e, c)
  | .ok v => (.ok v, deleteMailMessageInvalidate messageId c)

/-- `createCalendarEvent`: invalidations fire only after a successful call. -/
def createCalendarEventRun {V : Type} (call : Except (List Char) V) (c : Cache V) :
    Except (List Char) V × Cache V :=
  match call with
  | .error e => (.error e, c)
  | .ok v => (.ok v, createCalendarEventInvalidate c)

/-- `updateCalendarEvent`: invalidations fire only after a successful call. -/
def updateCalendarEventRun {V : Type} (eventId : List Char)
    (calendarId : Option (List Char)) (call : Except (List Char) V) (c : Cache V) :
    Except (List Char) V × Cache V :=
  match call with
  | .error e => (.error e, c)
  | .ok v => (.ok v, updateCalendarEventInvalidate eventId calendarId c)

/-- `deleteCalendarEvent`: invalidations fire only after a successful call. -/
def deleteCalendarEventRun {V : Type} (eventId : List Char)
    (calendarId : Option (List Char)) (call : Except (List Char) V) (c : Cache V) :
    Except (List Char) V × Cache V :=
  match call with
  | .error e => (.error e, c)
  | .ok v => (.ok v, deleteCalendarEventInvalidate eventId calendarId c)

/-- Options of `listMailMessages` (all optional). -/
structure MailListOptions where
  top : Option Nat := none
  skip : Option Nat := none
  filter : Option (List Char) := none
  orderBy : Option (List Char) := none

/-- Options of `listMailFolderMessages` and `listContacts` (top/skip). -/
structure TopSkipOptions where
  top : Option Nat := none
  skip : Option Nat := none

/-- Options of `listCalendarEvents`. -/
structure CalendarEventsOptions where
  calendarId : Option (List Char) := none
  top : Option Nat := none

/-- Options of `listTasks`. -/
structure TasksOptions where
  listId : Option (List Char) := none
  top : Option Nat := none

/-- Options of `updateCalendarEvent`. -/
structure UpdateEventOptions where
  subject : Option (List Char) := none
  start : Option (List Char) := none
  finish : Option (List Char) := none
  body : Option (List Char) := none
  location : Option (List Char) := none
  calendarId : Option (List Char) := none

/-- Options of `createCalendarEvent`. -/
structure CreateEventOptions where
  body : Option (List Char) := none
  location : Option (List Char) := none
  attendees : Option (List Char) := none
  calendarId : Option (List Char) := none

/-- An argument object handed to the tool-call facade: field names mapped
to (JSON-rendered) values. -/
abbrev ArgsObj := List (List Char × List Char)

/-- Translation of `if (options?.x) args.x = options.x` for a number
field: the key is added only when the field is set and truthy (nonzero). -/
def guardNat (name : List Char) (v : Option Nat) : ArgsObj :=
  match v with
  | some n => if n == 0 then [] else [(name, natChars n)]
  | none => []

/-- Translation of `if (options?.x) args.x = options.x` for a string
field: the key is added only when the field is set and truthy (nonempty). -/
def guardStr (name : List Char) (v : Option (List Char)) : ArgsObj :=
  match v with
  | some s => if s.isEmpty then [] else [(name, s)]
  | none => []

/-- Translation of an object-spread field (`...options`): a set field is
copied whatever its value; an undefined field does not appear. -/
def optField (name : List Char) (v : Option (List Char)) : ArgsObj :=
  match v with
  | some s => [(name, s)]
  | none => []

/-- Whether the argument object contains a key. -/
def hasKey (args : ArgsObj) (name : List Char) : Bool :=
  (List.lookup name args).isSome

/-- Whether an optional number parameter was set to a truthy value. -/
def natTruthy : Option Nat → Bool
  | some n => !(n == 0)
  | none => false

/-- Whether an optional string parameter was set to a truthy value. -/
def strTruthy : Option (List Char) → Bool
  | some s => !s.isEmpty
  | none => false

/-- Whether an optional parameter was set at all. -/
def isSetOpt : Option (List Char) → Bool
  | some _ => true
  | none => false

/-- Producer argument object of `listMailMessages`. -/
def listMailMessagesArgs (o : MailListOptions) : ArgsObj :=
  guardNat "top".data o.top ++ guardNat "skip".data o.skip ++
  guardStr "filter".data o.filter ++ guardStr "orderBy".data o.orderBy

/-- Cache key of `listMailMessages`:
`createCacheKey("mail_messages", options)`. -/
def listMailMessagesKey (o : MailListOptions) : Key :=
  createCacheKey "mail_messages".data
    [("top".data, o.top.map natChars), ("skip".data, o.skip.map natChars),
     ("filter".data, o.filter), ("orderBy".data, o.orderBy)]

/-- TTL used by `listMailMessages`. -/
def listMailMessagesTTL : Nat := TTL_FIVE_MINUTES

/-- Literal cache key of `listMailFolders`. -/
def listMailFoldersKey : Key := "mail_folders".data

/-- TTL used by `listMailFolders`. -/
def listMailFoldersTTL : Nat := TTL_HOUR

/-- Producer argument object of `listMailFolderMessages`. -/
def listMailFolderMessagesArgs (folderId : List Char) (o : TopSkipOptions) : ArgsObj :=
  ("mailFolderId".data, folderId) ::
    (guardNat "top".data o.top ++ guardNat "skip".data o.skip)

/-- Cache key of `listMailFolderMessages`:
`createCacheKey("folder_messages", folderId and options)`. -/
def listMailFolderMessagesKey (folderId : List Char) (o : TopSkipOptions) : Key :=
  createCacheKey "folder_messages".data
    [("folderId".data, some folderId), ("top".data, o.top.map natChars),
     ("skip".data, o.skip.map natChars)]

/-- TTL used by `listMailFolderMessages`. -/
def listMailFolderMessagesTTL : Nat := TTL_FIVE_MINUTES

/-- TTL used by `getMailMessage`. -/
def getMailMessageTTL : Nat := TTL_FIFTEEN_MINUTES

/-- Literal cache key of `listCalendars`. -/
def listCalendarsKey : Key := "calendars".data

/-- TTL used by `listCalendars`. -/
def listCalendarsTTL : Nat := TTL_HOUR

/-- Producer argument object of `listCalendarEvents`. -/
def listCalendarEventsArgs (o : CalendarEventsOptions) : ArgsObj :=
  guardStr "calendarId".data o.calendarId ++ guardNat "top".data o.top

/-- Cache key of `listCalendarEvents`. -/
def listCalendarEventsKey (o : CalendarEventsOptions) : Key :=
  createCacheKey "calendar_events".data
    [("calendarId".data, o.calendarId), ("top".data, o.top.map natChars)]

/-- TTL used by `listCalendarEvents`. -/
def listCalendarEventsTTL : Nat := TTL_FIFTEEN_MINUTES

/-- Producer argument object of `getCalendarEvent`. -/
def getCalendarEventArgs (eventId : List Char) (calendarId : Option (List Char)) : ArgsObj :=
  ("eventId".data, eventId) :: guardStr "calendarId".data calendarId

/-- TTL used by `getCalendarEvent`. -/
def getCalendarEventTTL : Nat := TTL_FIFTEEN_MINUTES

/-- Producer argument object of `getCalendarView`. -/
def getCalendarViewArgs (startDateTime endDateTime : List Char)
    (calendarId : Option (List Char)) : ArgsObj :=
  ("startDateTime".data, startDateTime) :: ("endDateTime".data, endDateTime) ::
    guardStr "calendarId".data calendarId

/-- Cache key of `getCalendarView`. -/
def getCalendarViewKey (startDateTime endDateTime : List Char)
    (calendarId : Option (List Char)) : Key :=
  createCacheKey "calendar_view".data
    [("start".data, some startDateTime), ("end".data, some endDateTime),
     ("calendarId".data, calendarId)]

/-- TTL used by `getCalendarView`. -/
def getCalendarViewTTL : Nat := TTL_FIFTEEN_MINUTES

/-- Producer argument object of `listContacts`. -/
def listContactsArgs (o : TopSkipOptions) : ArgsObj :=
  guardNat "top".data o.top ++ guardNat "skip".data o.skip

/-- Cache key of `listContacts`. -/
def listContactsKey (o : TopSkipOptions) : Key :=
  createCacheKey "contacts".data
    [("top".data, o.top.map natChars), ("skip".data, o.skip.map natChars)]

/-- TTL used by `listContacts`. -/
def listContactsTTL : Nat := TTL_FIFTEEN_MINUTES

/-- Producer argument object of `listTasks`. -/
def listTasksArgs (o : TasksOptions) : ArgsObj :=
  guardStr "listId".data o.listId ++ guardNat "top".data o.top

/-- Cache key of `listTasks`. -/
def listTasksKey (o : TasksOptions) : Key :=
  createCacheKey "tasks".data
    [("listId".data, o.listId), ("top".data, o.top.map natChars)]

/-- TTL used by `listTasks`. -/
def listTasksTTL : Nat := TTL_FIVE_MINUTES

/-- Producer argument object of `search`. -/
def searchArgs (query : List Char) (entityTypes : Option (List Char)) : ArgsObj :=
  ("query".data, query) :: guardStr "entityTypes".data entityTypes

/-- Cache key of `search`. -/
def searchKey (query : List Char) (entityTypes : Option (List Char)) : Key :=
  createCacheKey "search".data
    [("query".data, some query), ("entityTypes".data, entityTypes)]

/-- TTL used by `search`. -/
def searchTTL : Nat := TTL_FIVE_MINUTES

/-- Producer argument object of `sendMail`. -/
def sendMailArgs (toAddr subject body : List Char)
    (cc bodyType : Option (List Char)) : ArgsObj :=
  ("to".data, toAddr) :: ("subject".data, subject) :: ("body".data, body) ::
    (guardStr "cc".data cc ++ guardStr "bodyType".data bodyType)

/-- Producer argument object of `createDraftEmail`. -/
def createDraftEmailArgs (toAddr subject body : List Char)
    (cc : Option (List Char)) : ArgsObj :=
  ("to".data, toAddr) :: ("subject".data, subject) :: ("body".data, body) ::
    guardStr "cc".data cc

/-- Producer argument object of `createCalendarEvent`. -/
def createCalendarEventArgs (subject start finish : List Char)
    (o : CreateEventOptions) : ArgsObj :=
  ("subject".data, subject) :: ("start".data, start) :: ("end".data, finish) ::
    (guardStr "body".data o.body ++ guardStr "location".data o.location ++
     guardStr "attendees".data o.attendees ++ guardStr "calendarId".data o.calendarId)

/-- Producer argument object of `updateCalendarEvent`, built by object
spread `eventId with ...options`: set fields are copied as they are. -/
def updateCalendarEventArgs (eventId : List Char) (o : UpdateEventOptions) : ArgsObj :=
  ("eventId".data, eventId) ::
    (optField "subject".data o.subject ++ optField "start".data o.start ++
     optField "end".data o.finish ++ optField "body".data o.body ++
     optField "location".data o.location ++ optField "calendarId".data o.calendarId)

/-- Producer argument object of `deleteCalendarEvent`. -/
def deleteCalendarEventArgs (eventId : List Char) (calendarId : Option (List Char)) : ArgsObj :=
  ("eventId".data, eventId) :: guardStr "calendarId".data calendarId

/-- The connection-relevant state of an `OutlookMCPClient` instance.
`connectPromise` holds the attempt the pending-attempt marker points to
(`null` when cleared); `inFlight` is the attempt currently executing, if
any; `nextId` numbers attempts; `started` counts how many times
`doConnect` has begun executing. -/
structure ConnState where
  connectPromise : Option Nat
  inFlight : Option Nat
  nextId : Nat
  started : Nat
deriving DecidableEq, Repr

/-- The initial client state: no connection, no pending attempt. -/
def connInit : ConnState := ⟨none, none, 0, 0⟩

/-- One invocation of `connect()`: if `connectPromise` is set the caller
just awaits it; otherwise `doConnect()` starts and `connectPromise` is set
to the new attempt (whose `.catch` will clear the marker on failure).
Returns the new state and the attempt the caller awaits. -/
def connectCall (s : ConnState) : ConnState × Nat :=
  match s.connectPromise with
  | some a => (s, a)
  | none =>
    ({ connectPromise := some s.nextId, inFlight := some s.nextId,
       nextId := s.nextId + 1, started := s.started + 1 }, s.nextId)

/-- Settlement of the in-flight `doConnect` attempt.  On success the
promise stays cached; on failure the attached `.catch` handler resets
`connectPromise` to `null` so the next `connect()` retries from scratch. -/
def resolveAttempt (s : ConnState) (success : Bool) : ConnState :=
  match s.inFlight with
  | none => s
  | some _ =>
    if success then { s with inFlight := none }
    else { s with inFlight := none, connectPromise := none }

/-- An event of the cooperative scheduler: a `connect()` invocation or the
settlement of the in-flight attempt. -/
inductive ConnEvent where
  | call : ConnEvent
  | settle : Bool → ConnEvent
deriving DecidableEq, Repr

/-- Run a sequence of events, collecting the attempt each `connect()`
caller awaits. -/
def connRun (s : ConnState) : List ConnEvent → ConnState × List Nat
  | [] => (s, [])
  | ConnEvent.call :: es =>
    let p := connectCall s
    let r := connRun p.1 es
    (r.1, p.2 :: r.2)
  | ConnEvent.settle b :: es => connRun (resolveAttempt s b) es

/-- The single-flight invariant: whenever an attempt is executing, the
pending-attempt marker points at that same attempt. -/
def ConnInv (s : ConnState) : Prop :=
  ∀ a, s.inFlight = some a → s.connectPromise = some a

/-- A JSON value, the result of `JSON.parse` on a response text. -/
inductive JValue where
  | null : JValue
  | bool : Bool → JValue
  | num : Int → JValue
  | str : List Char → JValue
  | arr : List JValue → JValue
  | obj : List (List Char × JValue) → JValue

/-- Field access `parsed?.name` on a parsed JSON value: only objects have
fields. -/
def getField : JValue → List Char → Option JValue
  | JValue.obj fields, name => List.lookup name fields
  | _, _ => none

/-- Test `parsed?.name === true`. -/
def fieldIsTrue (j : JValue) (name : List Char) : Bool :=
  match getField j name with
  | some (JValue.bool true) => true
  | _ => false

/-- Test `parsed?.name === "value"`. -/
def fieldIsStr (j : JValue) (name value : List Char) : Bool :=
  match getField j name with
  | some (JValue.str s) => s == value
  | _ => false

/-- The authenticated-state decision of `checkAuth` applied to the text of
the `verify-login` response.  `parse` stands for `JSON.parse`, returning
`none` where the JavaScript builtin would throw.  On a parse the result is
`parsed?.success === true || parsed?.authenticated === true ||
parsed?.status === "authenticated"`; on a parse failure it falls back to
lowercased substring checks. -/
def checkAuthAuthenticated (parse : List Char → Option JValue) (text : List Char) : Bool :=
  match parse text with
  | some parsed =>
    fieldIsTrue parsed "success".data || fieldIsTrue parsed "authenticated".data ||
      fieldIsStr parsed "status".data "authenticated".data
  | none =>
    containsSub (lowerChars text) "authenticated".data ||
      containsSub (lowerChars text) "login successful".data

/-- The fixed marker beginning every authentication-required error message. -/
def authRequiredMarker : List Char := "AUTHENTICATION_REQUIRED".data

/-- The message thrown by `checkAuth` when the status check reports an
unauthenticated state. -/
def checkAuthFailMessage : List Char :=
  ("AUTHENTICATION_REQUIRED: Outlook OAuth token is expired or missing. " ++
   "Do NOT retry this operation. " ++
   "Ask the user to re-authenticate their personal Outlook account (YOUR_PERSONAL_EMAIL) " ++
   "by running the login command in a terminal with browser access.").data

/-- The tail of `doConnect` after the transport handshake succeeded:
unless `skipAuthCheck` is set it performs the `verify-login` status check
and throws when unauthenticated.  Returns whether the status-check call
was issued, and the outcome. -/
def doConnectAfterHandshake (skipAuthCheck : Bool)
    (parse : List Char → Option JValue) (verifyText : List Char) :
    Bool × Except (List Char) Unit :=
  if skipAuthCheck then (false, Except.ok ())
  else if checkAuthAuthenticated parse verifyText then (true, Except.ok ())
  else (true, Except.error checkAuthFailMessage)

/-- One content item of the MCP response envelope. -/
structure ContentItem where
  type : List Char
  text : Option (List Char)
deriving DecidableEq, Repr

/-- The MCP tool response envelope. -/
structure ToolResponse where
  isError : Bool
  content : List ContentItem
deriving DecidableEq, Repr

/-- First text payload of a content list:
`content.find(c => c.type === "text")?.text`. -/
def firstText (content : List ContentItem) : Option (List Char) :=
  (content.find? (fun c => c.type == "text".data)).bind (fun c => c.text)

/-- Error text extraction of `callTool`:
`content.find(c => c.type === "text")?.text || "Tool call failed"`
(JavaScript `||` replaces an undefined or empty text by the default). -/
def errorTextOf (content : List ContentItem) : List Char :=
  match firstText content with
  | some t => if t.isEmpty then "Tool call failed".data else t
  | none => "Tool call failed".data

/-- The fixed text appended after the error text in the
authentication-required message thrown by `callTool`. -/
def callToolAuthSuffix : List Char :=
  (" Do NOT retry this operation." ++
   " Ask the user to re-authenticate their personal Outlook account (YOUR_PERSONAL_EMAIL)" ++
   " by running the login command in a terminal with browser access.").data

/-- Classification result of one `callTool` response. -/
inductive CallOutcome (J : Type) where
  | value : J → CallOutcome J
  | rawText : List Char → CallOutcome J
  | rawContent : List ContentItem → CallOutcome J
  | throwAuthRequired : List Char → CallOutcome J
  | throwGeneric : List Char → CallOutcome J
deriving DecidableEq, Repr

/-- Response classification of `callTool` (after `connect()`), with
`parse` standing for `JSON.parse`: an error-flagged response throws
authentication-required or a generic error according to `isAuthError`; a
success with truthy text content is parsed as JSON, falling back to the
raw text; any other success returns the raw content list. -/
def callToolClassify {J : Type} (parse : List Char → Option J) (r : ToolResponse) :
    CallOutcome J :=
  if r.isError then
    let errorText := errorTextOf r.content
    if isAuthError errorText then
      CallOutcome.throwAuthRequired
        ("AUTHENTICATION_REQUIRED: ".data ++ errorText ++ callToolAuthSuffix)
    else CallOutcome.throwGeneric errorText
  else
    match firstText r.content with
    | some t =>
      if t.isEmpty then CallOutcome.rawContent r.content
      else
        match parse t with
        | some v => CallOutcome.value v
        | none => CallOutcome.rawText t
    | none => CallOutcome.rawContent r.content

theorem char_toNat_inj {x y : Char} (h : x.toNat = y.toNat) : x = y :=
  Char.eq_of_val_eq (UInt32.toNat.inj h)

theorem charListLe_total : ∀ a b, charListLe a b = true ∨ charListLe b a = true
  | [], _ => Or.inl rfl
  | _ :: _, [] => Or.inr rfl
  | x :: xs, y :: ys => by
    by_cases hxy : x.toNat = y.toNat
    · rcases charListLe_total xs ys with h | h
      · left; simp only [charListLe, if_pos hxy]; exact h
      · right; simp only [charListLe, if_pos hxy.symm]; exact h
    · rcases Nat.lt_or_ge x.toNat y.toNat with h | h
      · left; simp only [charListLe, if_neg hxy, decide_eq_true_eq]; exact h
      · right
        have hne : ¬ y.toNat = x.toNat := by omega
        simp only [charListLe, if_neg hne, decide_eq_true_eq]
        omega

theorem charListLe_antisymm :
    ∀ a b, charListLe a b = true → charListLe b a = true → a = b
  | [], [], _, _ => rfl
  | [], _ :: _, _, h => by simp [charListLe] at h
  | _ :: _, [], h, _ => by simp [charListLe] at h
  | x :: xs, y :: ys, h₁, h₂ => by
    by_cases hxy : x.toNat = y.toNat
    · have hx : x = y := char_toNat_inj hxy
      subst hx
      simp only [charListLe, if_pos rfl] at h₁ h₂
      rw [charListLe_antisymm xs ys h₁ h₂]
    · exfalso
      have hyx : ¬ y.toNat = x.toNat := by omega
      simp only [charListLe, if_neg hxy, decide_eq_true_eq] at h₁
      simp only [charListLe, if_neg hyx, decide_eq_true_eq] at h₂
      omega

theorem charListLe_trans :
    ∀ a b c, charListLe a b = true → charListLe b c = true → charListLe a c = true
  | [], _, _, _, _ => rfl
  | _ :: _, [], _, h, _ => by simp [charListLe] at h
  | _ :: _, _ :: _, [], _, h => by simp [charListLe] at h
  | x :: xs, y :: ys, z :: zs, h₁, h₂ => by
    by_cases hxy : x.toNat = y.toNat <;> by_cases hyz : y.toNat = z.toNat
    · simp only [charListLe, if_pos hxy] at h₁
      simp only [charListLe, if_pos hyz] at h₂
      simp only [charListLe, if_pos (hxy.trans hyz)]
      exact charListLe_trans xs ys zs h₁ h₂
    · simp only [charListLe, if_neg hyz, decide_eq_true_eq] at h₂
      have hxz : ¬ x.toNat = z.toNat := by omega
      simp only [charListLe, if_neg hxz, decide_eq_true_eq]
      omega
    · simp only [charListLe, if_neg hxy, decide_eq_true_eq] at h₁
      have hxz : ¬ x.toNat = z.toNat := by omega
      simp only [charListLe, if_neg hxz, decide_eq_true_eq]
      omega
    · simp only [charListLe, if_neg hxy, decide_eq_true_eq] at h₁
      simp only [charListLe, if_neg hyz, decide_eq_true_eq] at h₂
      have hxz : ¬ x.toNat = z.toNat := by omega
      simp only [charListLe, if_neg hxz, decide_eq_true_eq]
      omega

instance : IsTotal (List Char) KeyFieldLe := ⟨charListLe_total⟩
instance : IsTrans (List Char) KeyFieldLe := ⟨charListLe_trans⟩
instance : IsAntisymm (List Char) KeyFieldLe := ⟨charListLe_antisymm⟩

/-- C1: `isAuthError` returns true for exactly the strings containing,
case-insensitively and in any surrounding text, one of the recognized
authentication-failure vocabulary substrings, and false for every string
containing none of them. -/
theorem isAuthError_iff_vocabulary (text : List Char) :
    isAuthError text = true ↔ ∃ v ∈ authVocabulary, v <:+: lowerChars text := by
  simp only [isAuthError, containsSub, Bool.or_eq_true, decide_eq_true_eq, authVocabulary,
    List.mem_cons, List.not_mem_nil, or_false, exists_eq_or_imp, exists_eq_left]
  tauto

theorem connRun_joined (a : Nat) :
    ∀ (m : Nat) (s : ConnState), s.connectPromise = some a →
      connRun s (List.replicate m ConnEvent.call) = (s, List.replicate m a)
  | 0, s, _ => rfl
  | m + 1, s, h => by
    have hc : connectCall s = (s, a) := by simp [connectCall, h]
    simp [List.replicate_succ, connRun, hc, connRun_joined a m s h]

theorem connRun_append (es₁ es₂ : List ConnEvent) :
    ∀ s : ConnState,
      connRun s (es₁ ++ es₂) =
        ((connRun (connRun s es₁).1 es₂).1,
          (connRun s es₁).2 ++ (connRun (connRun s es₁).1 es₂).2) := by
  induction es₁ with
  | nil => intro s; simp [connRun]
  | cons e t ih =>
    intro s
    cases e with
    | call => simp [connRun, ih]
    | settle b => simp [connRun, ih]

theorem connInv_connectCall {s : ConnState} (h : ConnInv s) : ConnInv (connectCall s).1 := by
  unfold connectCall
  cases hp : s.connectPromise with
  | some a =>
    simp only [hp]
    exact h
  | none =>
    simp only [hp]
    intro x hx
    exact hx

theorem connInv_resolveAttempt (s : ConnState) (b : Bool) : ConnInv (resolveAttempt s b) := by
  unfold ConnInv resolveAttempt
  cases hf : s.inFlight with
  | none => intro a ha; simp [hf] at ha
  | some x => cases b <;> intro a ha <;> simp at ha

theorem connRun_inv (es : List ConnEvent) :
    ∀ s : ConnState, ConnInv s → ConnInv (connRun s es).1 := by
  induction es with
  | nil => intro s h; exact h
  | cons e t ih =>
    intro s h
    cases e with
    | call => exact ih _ (connInv_connectCall h)
    | settle b => exact ih _ (connInv_resolveAttempt s b)

/-- C3: single-flight connection.  Any number of `connect()` calls before
a connection exists run exactly one `doConnect` handshake and all await
attempt 0 (hence observe that one attempt's outcome); after the attempt
fails the pending marker is cleared and the next call starts a fresh
attempt (attempt 1, second handshake) instead of replaying the failure;
from the initial state the single-flight invariant always holds, and
while an attempt is in flight a further `connect()` starts nothing new:
it returns the same state and joins the in-flight attempt. -/
theorem connect_single_flight :
    (∀ n : Nat,
      connRun connInit (List.replicate (n + 1) ConnEvent.call) =
        (⟨some 0, some 0, 1, 1⟩, List.replicate (n + 1) 0)) ∧
    (∀ n : Nat,
      (connRun connInit
          (List.replicate (n + 1) ConnEvent.call ++ [ConnEvent.settle false])).1 =
        ⟨none, none, 1, 1⟩ ∧
      connectCall ⟨none, none, 1, 1⟩ = (⟨some 1, some 1, 2, 2⟩, 1)) ∧
    (∀ es : List ConnEvent, ConnInv (connRun connInit es).1) ∧
    (∀ (s : ConnState) (a : Nat), ConnInv s → s.inFlight = some a →
      connectCall s = (s, a)) := by
  have hfirst : ∀ n : Nat,
      connRun connInit (List.replicate (n + 1) ConnEvent.call) =
        (⟨some 0, some 0, 1, 1⟩, List.replicate (n + 1) 0) := by
    intro n
    have hc : connectCall connInit = (⟨some 0, some 0, 1, 1⟩, 0) := by decide
    have hj := connRun_joined 0 n ⟨some 0, some 0, 1, 1⟩ rfl
    simp [List.replicate_succ, connRun, hc, hj]
  refine ⟨hfirst, ?_, ?_, ?_⟩
  · intro n
    constructor
    · rw [connRun_append, hfirst n]
      rfl
    · decide
  · intro es
    exact connRun_inv es connInit (by intro a h; simp [connInit] at h)
  · intro s a hinv hfl
    simp [connectCall, hinv a hfl]

/-- Witness for C3: a concrete state with attempt 5 in flight satisfies
the invariant, and a `connect()` call there joins attempt 5 without
starting a new handshake. -/
theorem connect_single_flight_witness :
    connectCall ⟨some 5, some 5, 6, 1⟩ = (⟨some 5, some 5, 6, 1⟩, 5) :=
  connect_single_flight.2.2.2 ⟨some 5, some 5, 6, 1⟩ 5 (fun _ h => h) rfl

/-- Counterexample for C4: a non-error response whose text content is the
empty string (which is not JSON) is classified as the raw content list,
not as the raw text string the claim requires. -/
theorem callTool_empty_text_counterexample :
    callToolClassify (fun _ => (none : Option Unit))
        ⟨false, [⟨"text".data, some []⟩]⟩ =
      CallOutcome.rawContent [⟨"text".data, some []⟩] ∧
    callToolClassify (fun _ => (none : Option Unit))
        ⟨false, [⟨"text".data, some []⟩]⟩ ≠
      CallOutcome.rawText [] := by
  constructor
  · rfl
  · decide

/-- C4 (amended): classification of `callTool` responses.  A non-error
response with nonempty text content returns the JSON-parsed value, or the
raw text when parsing fails; a non-error response with no text content,
or whose text content is empty, returns the raw content list; an
error-flagged response raises authentication-required when the error text
matches the auth vocabulary and otherwise a generic failure carrying the
server's message verbatim. -/
theorem callTool_classification {J : Type} (parse : List Char → Option J)
    (r : ToolResponse) :
    (r.isError = false →
      (∀ t v, firstText r.content = some t → t.isEmpty = false →
        parse t = some v → callToolClassify parse r = CallOutcome.value v) ∧
      (∀ t, firstText r.content = some t → t.isEmpty = false →
        parse t = none → callToolClassify parse r = CallOutcome.rawText t) ∧
      (∀ t, firstText r.content = some t → t.isEmpty = true →
        callToolClassify parse r = CallOutcome.rawContent r.content) ∧
      (firstText r.content = none →
        callToolClassify parse r = CallOutcome.rawContent r.content)) ∧
    (r.isError = true →
      (isAuthError (errorTextOf r.content) = true →
        callToolClassify parse r =
          CallOutcome.throwAuthRequired
            ("AUTHENTICATION_REQUIRED: ".data ++ errorTextOf r.content ++
              callToolAuthSuffix)) ∧
      (isAuthError (errorTextOf r.content) = false →
        callToolClassify parse r =
          CallOutcome.throwGeneric (errorTextOf r.content))) := by
  constructor
  · intro herr
    refine ⟨?_, ?_, ?_, ?_⟩
    · intro t v ht hne hp
      simp [callToolClassify, herr, ht, hne, hp]
    · intro t ht hne hp
      simp [callToolClassify, herr, ht, hne, hp]
    · intro t ht he
      simp [callToolClassify, herr, ht, he]
    · intro ht
      simp [callToolClassify, herr, ht]
  · intro herr
    constructor
    · intro ha
      simp [callToolClassify, herr, ha]
    · intro ha
      simp [callToolClassify, herr, ha]

/-- Witness for C4: an error-flagged response whose text matches the auth
vocabulary raises the authentication-required condition. -/
theorem callTool_classification_witness :
    callToolClassify (fun _ => (none : Option Unit))
        ⟨true, [⟨"text".data, some "401 Unauthorized".data⟩]⟩ =
      CallOutcome.throwAuthRequired
        ("AUTHENTICATION_REQUIRED: ".data ++
          errorTextOf [⟨"text".data, some "401 Unauthorized".data⟩] ++
          callToolAuthSuffix) :=
  ((callTool_classification (fun _ => (none : Option Unit))
      ⟨true, [⟨"text".data, some "401 Unauthorized".data⟩]⟩).2 rfl).1 (by decide)

/-- C5: after a successful handshake, `doConnect` issues the
`verify-login` status check unless `skipAuthCheck` is set, and throws an
error whose message begins with the `AUTHENTICATION_REQUIRED` marker
whenever the server reports an unauthenticated state; with `skipAuthCheck`
set, no status-check call is made and the connection succeeds. -/
theorem doConnect_auth_preflight (parse : List Char → Option JValue)
    (verifyText : List Char) :
    doConnectAfterHandshake true parse verifyText = (false, Except.ok ()) ∧
    (doConnectAfterHandshake false parse verifyText).1 = true ∧
    (checkAuthAuthenticated parse verifyText = false →
      doConnectAfterHandshake false parse verifyText =
        (true, Except.error checkAuthFailMessage) ∧
      List.isPrefixOf authRequiredMarker checkAuthFailMessage = true) := by
  refine ⟨rfl, ?_, ?_⟩
  · by_cases h : checkAuthAuthenticated parse verifyText = true
    · simp [doConnectAfterHandshake, h]
    · simp [doConnectAfterHandshake, h]
  · intro h
    constructor
    · simp [doConnectAfterHandshake, h]
    · decide

/-- Witness for C5: with JSON parsing failing and a response text bearing
no authenticated vocabulary, the preflight throws the marked error. -/
theorem doConnect_auth_preflight_witness :
    doConnectAfterHandshake false (fun _ => none) "no token".data =
      (true, Except.error checkAuthFailMessage) ∧
    List.isPrefixOf authRequiredMarker checkAuthFailMessage = true :=
  (doConnect_auth_preflight (fun _ => none) "no token".data).2.2 (by decide)

/-- C9: when the `verify-login` response text is not valid JSON,
`checkAuth` deems the session authenticated exactly when the lowercased
text contains "authenticated" or "login successful"; in particular the
plain text "unauthenticated" contains "authenticated", so the preflight
succeeds without raising the authentication-required condition. -/
theorem checkAuth_nonjson_fallback (parse : List Char → Option JValue) :
    (∀ text, parse text = none →
      checkAuthAuthenticated parse text =
        (containsSub (lowerChars text) "authenticated".data ||
         containsSub (lowerChars text) "login successful".data)) ∧
    (parse "unauthenticated".data = none →
      checkAuthAuthenticated parse "unauthenticated".data = true ∧
      doConnectAfterHandshake false parse "unauthenticated".data =
        (true, Except.ok ())) := by
  constructor
  · intro text h
    simp [checkAuthAuthenticated, h]
  · intro h
    have hauth : checkAuthAuthenticated parse "unauthenticated".data = true := by
      simp [checkAuthAuthenticated, h]
      decide
    exact ⟨hauth, by simp [doConnectAfterHandshake, hauth]⟩

/-- Witness for C9: with a parser that rejects everything (as `JSON.parse`
does on the plain word), the response "unauthenticated" is deemed
authenticated and the preflight succeeds. -/
theorem checkAuth_nonjson_fallback_witness :
    checkAuthAuthenticated (fun _ => none) "unauthenticated".data = true ∧
    doConnectAfterHandshake false (fun _ => none) "unauthenticated".data =
      (true, Except.ok ()) :=
  (checkAuth_nonjson_fallback (fun _ => none)).2 rfl

theorem lookup_filter_self_none {α β : Type} [BEq α] [LawfulBEq α]
    (k : α) (p : α × β → Bool) (h : ∀ b, p (k, b) = false) :
    ∀ l : List (α × β), List.lookup k (l.filter p) = none := by
  intro l
  induction l with
  | nil => rfl
  | cons kv t ih =>
    rcases kv with ⟨a, b⟩
    by_cases hp : p (a, b) = true
    · rw [List.filter_cons_of_pos hp, List.lookup_cons]
      have hne : (k == a) = false := by
        rcases Bool.eq_false_or_eq_true (k == a) with ht | hf
        · exfalso
          have : k = a := eq_of_beq ht
          rw [← this] at hp
          rw [h b] at hp
          exact Bool.false_ne_true hp
        · exact hf
      rw [hne]
      exact ih
    · rw [List.filter_cons_of_neg (by simpa using hp)]
      exact ih

theorem lookup_none_filter {α β : Type} [BEq α]
    (k : α) (p : α × β → Bool) :
    ∀ l : List (α × β), List.lookup k l = none →
      List.lookup k (l.filter p) = none := by
  intro l
  induction l with
  | nil => intro _; rfl
  | cons kv t ih =>
    rcases kv with ⟨a, b⟩
    intro h
    rw [List.lookup_cons] at h
    rcases hka : (k == a) with _ | _
    · rw [hka] at h
      by_cases hp : p (a, b) = true
      · rw [List.filter_cons_of_pos hp, List.lookup_cons, hka]
        exact ih h
      · rw [List.filter_cons_of_neg (by simpa using hp)]
        exact ih h
    · rw [hka] at h
      exact absurd h (by simp)

theorem lookup_invalidateByAnchor {V : Type} (lit k : Key) (c : Cache V)
    (h : List.isPrefixOf lit k = true) :
    List.lookup k (invalidateByAnchor lit c) = none := by
  apply lookup_filter_self_none
  intro b
  simp [h]

theorem lookup_cacheInvalidate_self {V : Type} (k : Key) (c : Cache V) :
    List.lookup k (cacheInvalidate k c) = none := by
  apply lookup_filter_self_none
  intro b
  simp

theorem lookup_invalidateByAnchor_mono {V : Type} (lit k : Key) (c : Cache V)
    (h : List.lookup k c = none) :
    List.lookup k (invalidateByAnchor lit c) = none :=
  lookup_none_filter k _ c h

theorem lookup_cacheInvalidate_mono {V : Type} (k₀ k : Key) (c : Cache V)
    (h : List.lookup k c = none) :
    List.lookup k (cacheInvalidate k₀ c) = none :=
  lookup_none_filter k _ c h

/-- C2: after each write operation completes successfully, every cached
entry matching its documented invalidation patterns is gone: sending mail
removes every `mail_messages`-anchored entry; moving or deleting a
message removes every `mail_messages`- and `folder_messages`-anchored
entry and the message's detail entry; creating an event removes every
`calendar_events`- and `calendar_view`-anchored entry; updating or
deleting an event additionally removes the event's detail entry. -/
theorem write_invalidation {V : Type} (c : Cache V) (v : V) (k : Key) :
    (List.isPrefixOf "mail_messages".data k = true →
      List.lookup k (sendMailRun (Except.ok v) c).2 = none) ∧
    (∀ messageId,
      List.isPrefixOf "mail_messages".data k = true ∨
      List.isPrefixOf "folder_messages".data k = true ∨
      k = getMailMessageKey messageId →
      List.lookup k (moveMailMessageRun messageId (Except.ok v) c).2 = none) ∧
    (∀ messageId,
      List.isPrefixOf "mail_messages".data k = true ∨
      List.isPrefixOf "folder_messages".data k = true ∨
      k = getMailMessageKey messageId →
      List.lookup k (deleteMailMessageRun messageId (Except.ok v) c).2 = none) ∧
    (List.isPrefixOf "calendar_events".data k = true ∨
      List.isPrefixOf "calendar_view".data k = true →
      List.lookup k (createCalendarEventRun (Except.ok v) c).2 = none) ∧
    (∀ eventId calendarId,
      List.isPrefixOf "calendar_events".data k = true ∨
      List.isPrefixOf "calendar_view".data k = true ∨
      k = getCalendarEventKey eventId calendarId →
      List.lookup k
        (updateCalendarEventRun eventId calendarId (Except.ok v) c).2 = none) ∧
    (∀ eventId calendarId,
      List.isPrefixOf "calendar_events".data k = true ∨
      List.isPrefixOf "calendar_view".data k = true ∨
      k = getCalendarEventKey eventId calendarId →
      List.lookup k
        (deleteCalendarEventRun eventId calendarId (Except.ok v) c).2 = none) := by
  have hmailset : ∀ messageId,
      List.isPrefixOf "mail_messages".data k = true ∨
      List.isPrefixOf "folder_messages".data k = true ∨
      k = getMailMessageKey messageId →
      List.lookup k (moveMailMessageInvalidate messageId c) = none := by
    intro messageId h
    unfold moveMailMessageInvalidate
    rcases h with h | h | h
    · exact lookup_cacheInvalidate_mono _ _ _
        (lookup_invalidateByAnchor_mono _ _ _ (lookup_invalidateByAnchor _ _ _ h))
    · exact lookup_cacheInvalidate_mono _ _ _ (lookup_invalidateByAnchor _ _ _ h)
    · rw [h]
      exact lookup_cacheInvalidate_self _ _
  have hcalset : ∀ eventId calendarId,
      List.isPrefixOf "calendar_events".data k = true ∨
      List.isPrefixOf "calendar_view".data k = true ∨
      k = getCalendarEventKey eventId calendarId →
      List.lookup k (updateCalendarEventInvalidate eventId calendarId c) = none := by
    intro eventId calendarId h
    unfold updateCalendarEventInvalidate
    rcases h with h | h | h
    · exact lookup_cacheInvalidate_mono _ _ _
        (lookup_invalidateByAnchor_mono _ _ _ (lookup_invalidateByAnchor _ _ _ h))
    · exact lookup_cacheInvalidate_mono _ _ _ (lookup_invalidateByAnchor _ _ _ h)
    · rw [h]
      exact lookup_cacheInvalidate_self _ _
  refine ⟨?_, ?_, ?_, ?_, ?_, ?_⟩
  · intro h
    exact lookup_invalidateByAnchor _ _ _ h
  · exact hmailset
  · exact hmailset
  · intro h
    unfold createCalendarEventRun createCalendarEventInvalidate
    rcases h with h | h
    · exact lookup_invalidateByAnchor_mono _ _ _ (lookup_invalidateByAnchor _ _ _ h)
    · exact lookup_invalidateByAnchor _ _ _ h
  · exact hcalset
  · exact hcalset

/-- Witness for C2: a cache holding the default `listMailMessages` list
entry loses it when `sendMail` succeeds. -/
theorem write_invalidation_witness :
    List.isPrefixOf "mail_messages".data (listMailMessagesKey {}) = true ∧
    List.lookup (listMailMessagesKey {})
      (sendMailRun (Except.ok 0)
        [(listMailMessagesKey {}, ⟨0, 0, TTL_FIVE_MINUTES⟩)]).2 = none :=
  ⟨by decide,
   (write_invalidation [(listMailMessagesKey {}, ⟨0, 0, TTL_FIVE_MINUTES⟩)] 0
      (listMailMessagesKey {})).1 (by decide)⟩

/-- C10: when the underlying tool call of a write operation throws, no
invalidation runs: the error propagates and the cache is returned
unchanged, every entry present before the call still present. -/
theorem write_error_preserves_cache {V : Type} (e : List Char) (c : Cache V)
    (messageId eventId : List Char) (calendarId : Option (List Char)) :
    sendMailRun (Except.error e) c = (Except.error e, c) ∧
    moveMailMessageRun messageId (Except.error e) c = (Except.error e, c) ∧
    deleteMailMessageRun messageId (Except.error e) c = (Except.error e, c) ∧
    createCalendarEventRun (Except.error e) c = (Except.error e, c) ∧
    updateCalendarEventRun eventId calendarId (Except.error e) c =
      (Except.error e, c) ∧
    deleteCalendarEventRun eventId calendarId (Except.error e) c =
      (Except.error e, c) :=
  ⟨rfl, rfl, rfl, rfl, rfl, rfl⟩

/-- C6: with caching enabled, a read whose key is not freshly cached
invokes the producer and stores the result, and repeating the same read
within the TTL window returns the identical cached value without invoking
the producer again; with caching disabled every invocation calls through
and nothing is stored. -/
theorem read_through_cache {V : Type} (k : Key) (ttl t₀ t₁ : Nat)
    (c₀ : Cache V) (v₁ v₂ : V)
    (hmiss : lookupFresh t₀ c₀ k = none) (hfresh : t₁ < t₀ + ttl) :
    clientRead false t₀ c₀ k ttl v₁ = (v₁, (k, ⟨v₁, t₀, ttl⟩) :: c₀, true) ∧
    clientRead false t₁ ((k, ⟨v₁, t₀, ttl⟩) :: c₀) k ttl v₂ =
      (v₁, (k, ⟨v₁, t₀, ttl⟩) :: c₀, false) ∧
    (∀ (t : Nat) (c : Cache V) (v : V), clientRead true t c k ttl v = (v, c, true)) := by
  refine ⟨?_, ?_, ?_⟩
  · simp [clientRead, getOrFetch, hmiss]
  · have hl : List.lookup k ((k, (⟨v₁, t₀, ttl⟩ : CacheEntry V)) :: c₀) =
        some ⟨v₁, t₀, ttl⟩ := by
      rw [List.lookup_cons]
      simp
    simp [clientRead, getOrFetch, lookupFresh, hl, hfresh]
  · intro t c v
    simp [clientRead, getOrFetch]

/-- Witness for C6: a fresh cache misses, the first read stores, the
second read within the TTL hits. -/
theorem read_through_cache_witness :
    lookupFresh 0 ([] : Cache Nat) listMailFoldersKey = none ∧
    (0 : Nat) < 0 + listMailFoldersTTL ∧
    clientRead false 0 ([] : Cache Nat) listMailFoldersKey listMailFoldersTTL 7 =
      (7, [(listMailFoldersKey, ⟨7, 0, listMailFoldersTTL⟩)], true) ∧
    clientRead false 0 [(listMailFoldersKey, ⟨7, 0, listMailFoldersTTL⟩)]
        listMailFoldersKey listMailFoldersTTL 8 =
      (7, [(listMailFoldersKey, ⟨7, 0, listMailFoldersTTL⟩)], false) := by
  have h := read_through_cache (V := Nat) listMailFoldersKey listMailFoldersTTL 0 0
    [] 7 8 rfl (by decide)
  exact ⟨rfl, by decide, h.1, h.2.1⟩

/-- Counterexample for C7: the claim assigns every list-style read the
five-minute tier, but the event-list and contact-list reads are cached
for fifteen minutes. -/
theorem list_ttl_counterexample :
    listCalendarEventsTTL = TTL_FIFTEEN_MINUTES ∧
    ¬ listCalendarEventsTTL = TTL_FIVE_MINUTES ∧
    listContactsTTL = TTL_FIFTEEN_MINUTES ∧
    ¬ listContactsTTL = TTL_FIVE_MINUTES := by
  refine ⟨rfl, by decide, rfl, by decide⟩

/-- C7 (amended): every read operation uses a fixed TTL tier: five
minutes for inbox lists, folder-message lists, task lists and search;
fifteen minutes for single-message and single-event fetches,
calendar-view range queries, event lists and contact lists; one hour for
the near-static folder and calendar lists. -/
theorem read_ttl_tiers :
    listMailMessagesTTL = TTL_FIVE_MINUTES ∧
    listMailFolderMessagesTTL = TTL_FIVE_MINUTES ∧
    listTasksTTL = TTL_FIVE_MINUTES ∧
    searchTTL = TTL_FIVE_MINUTES ∧
    getMailMessageTTL = TTL_FIFTEEN_MINUTES ∧
    getCalendarEventTTL = TTL_FIFTEEN_MINUTES ∧
    getCalendarViewTTL = TTL_FIFTEEN_MINUTES ∧
    listCalendarEventsTTL = TTL_FIFTEEN_MINUTES ∧
    listContactsTTL = TTL_FIFTEEN_MINUTES ∧
    listMailFoldersTTL = TTL_HOUR ∧
    listCalendarsTTL = TTL_HOUR :=
  ⟨rfl, rfl, rfl, rfl, rfl, rfl, rfl, rfl, rfl, rfl, rfl⟩

theorem hasKey_nil (n : List Char) : hasKey [] n = false := rfl

theorem hasKey_cons (x v : List Char) (t : ArgsObj) (n : List Char) :
    hasKey ((x, v) :: t) n = ((n == x) || hasKey t n) := by
  rw [hasKey, List.lookup_cons]
  cases h : (n == x) <;> simp [h, hasKey]

theorem hasKey_append (a b : ArgsObj) (n : List Char) :
    hasKey (a ++ b) n = (hasKey a n || hasKey b n) := by
  induction a with
  | nil => simp [hasKey_nil, hasKey]
  | cons kv t ih =>
    rcases kv with ⟨x, v⟩
    rw [List.cons_append, hasKey_cons, hasKey_cons, ih, Bool.or_assoc]

theorem hasKey_guardNat (name : List Char) (v : Option Nat) (n : List Char) :
    hasKey (guardNat name v) n = ((n == name) && natTruthy v) := by
  cases v with
  | none => simp [guardNat, natTruthy, hasKey_nil]
  | some m =>
    by_cases h : (m == 0) = true
    · simp [guardNat, h, natTruthy, hasKey_nil]
    · simp only [guardNat, natTruthy, Bool.not_eq_true] at h ⊢
      rw [if_neg (by simp [h])]
      rw [hasKey_cons, hasKey_nil, Bool.or_false, h]
      simp

theorem hasKey_guardStr (name : List Char) (v : Option (List Char)) (n : List Char) :
    hasKey (guardStr name v) n = ((n == name) && strTruthy v) := by
  cases v with
  | none => simp [guardStr, strTruthy, hasKey_nil]
  | some s =>
    by_cases h : s.isEmpty = true
    · simp [guardStr, h, strTruthy, hasKey_nil]
    · simp only [guardStr, strTruthy, Bool.not_eq_true] at h ⊢
      rw [if_neg (by simp [h])]
      rw [hasKey_cons, hasKey_nil, Bool.or_false, h]
      simp

theorem hasKey_optField (name : List Char) (v : Option (List Char)) (n : List Char) :
    hasKey (optField name v) n = ((n == name) && isSetOpt v) := by
  cases v with
  | none => simp [optField, isSetOpt, hasKey_nil]
  | some s =>
    rw [optField, hasKey_cons, hasKey_nil, Bool.or_false]
    simp [isSetOpt]

theorem createCacheKey_perm (op : List Char)
    {f₁ f₂ : List (List Char × Option (List Char))} (h : f₁.Perm f₂) :
    createCacheKey op f₁ = createCacheKey op f₂ := by
  unfold createCacheKey
  have hp : (f₁.filterMap (fun f => f.2.map (fun v => f.1 ++ '=' :: v))).Perm
      (f₂.filterMap (fun f => f.2.map (fun v => f.1 ++ '=' :: v))) :=
    h.filterMap _
  have hs : List.insertionSort KeyFieldLe
      (f₁.filterMap (fun f => f.2.map (fun v => f.1 ++ '=' :: v))) =
      List.insertionSort KeyFieldLe
        (f₂.filterMap (fun f => f.2.map (fun v => f.1 ++ '=' :: v))) :=
    List.eq_of_perm_of_sorted
      ((List.perm_insertionSort _ _).trans (hp.trans (List.perm_insertionSort _ _).symm))
      (List.sorted_insertionSort _ _) (List.sorted_insertionSort _ _)
  rw [hs]

/-- Counterexample for C8: `listMailMessages` called with `skip` set to
`0` has the parameter set, yet the argument object passed to the facade
contains no `skip` key (the truthiness guard drops falsy values). -/
theorem optional_args_counterexample :
    (MailListOptions.mk none (some 0) none none).skip = some 0 ∧
    hasKey (listMailMessagesArgs (MailListOptions.mk none (some 0) none none))
      "skip".data = false := by
  constructor
  · rfl
  · decide

/-- C8 (amended): cache keys derived from a normalized argument object
are identical for permuted field lists, and for every guard-built
operation the argument object contains a key for an optional parameter
exactly when the caller set that parameter to a truthy value (nonzero
number, nonempty string); `updateCalendarEvent`, which spreads its
options, contains a key exactly when the parameter is set. -/
theorem optional_args_presence :
    (∀ (op : List Char) (f₁ f₂ : List (List Char × Option (List Char))),
      f₁.Perm f₂ → createCacheKey op f₁ = createCacheKey op f₂) ∧
    (∀ o : MailListOptions,
      hasKey (listMailMessagesArgs o) "top".data = natTruthy o.top ∧
      hasKey (listMailMessagesArgs o) "skip".data = natTruthy o.skip ∧
      hasKey (listMailMessagesArgs o) "filter".data = strTruthy o.filter ∧
      hasKey (listMailMessagesArgs o) "orderBy".data = strTruthy o.orderBy) ∧
    (∀ (folderId : List Char) (o : TopSkipOptions),
      hasKey (listMailFolderMessagesArgs folderId o) "top".data = natTruthy o.top ∧
      hasKey (listMailFolderMessagesArgs folderId o) "skip".data = natTruthy o.skip) ∧
    (∀ (toAddr subject body : List Char) (cc bodyType : Option (List Char)),
      hasKey (sendMailArgs toAddr subject body cc bodyType) "cc".data = strTruthy cc ∧
      hasKey (sendMailArgs toAddr subject body cc bodyType) "bodyType".data =
        strTruthy bodyType) ∧
    (∀ (toAddr subject body : List Char) (cc : Option (List Char)),
      hasKey (createDraftEmailArgs toAddr subject body cc) "cc".data = strTruthy cc) ∧
    (∀ o : CalendarEventsOptions,
      hasKey (listCalendarEventsArgs o) "calendarId".data = strTruthy o.calendarId ∧
      hasKey (listCalendarEventsArgs o) "top".data = natTruthy o.top) ∧
    (∀ (eventId : List Char) (calendarId : Option (List Char)),
      hasKey (getCalendarEventArgs eventId calendarId) "calendarId".data =
        strTruthy calendarId) ∧
    (∀ (s e : List Char) (calendarId : Option (List Char)),
      hasKey (getCalendarViewArgs s e calendarId) "calendarId".data =
        strTruthy calendarId) ∧
    (∀ (subject s e : List Char) (o : CreateEventOptions),
      hasKey (createCalendarEventArgs subject s e o) "body".data = strTruthy o.body ∧
      hasKey (createCalendarEventArgs subject s e o) "location".data =
        strTruthy o.location ∧
      hasKey (createCalendarEventArgs subject s e o) "attendees".data =
        strTruthy o.attendees ∧
      hasKey (createCalendarEventArgs subject s e o) "calendarId".data =
        strTruthy o.calendarId) ∧
    (∀ (eventId : List Char) (o : UpdateEventOptions),
      hasKey (updateCalendarEventArgs eventId o) "subject".data = isSetOpt o.subject ∧
      hasKey (updateCalendarEventArgs eventId o) "start".data = isSetOpt o.start ∧
      hasKey (updateCalendarEventArgs eventId o) "end".data = isSetOpt o.finish ∧
      hasKey (updateCalendarEventArgs eventId o) "body".data = isSetOpt o.body ∧
      hasKey (updateCalendarEventArgs eventId o) "location".data =
        isSetOpt o.location ∧
      hasKey (updateCalendarEventArgs eventId o) "calendarId".data =
        isSetOpt o.calendarId) ∧
    (∀ (eventId : List Char) (calendarId : Option (List Char)),
      hasKey (deleteCalendarEventArgs eventId calendarId) "calendarId".data =
        strTruthy calendarId) ∧
    (∀ o : TopSkipOptions,
      hasKey (listContactsArgs o) "top".data = natTruthy o.top ∧
      hasKey (listContactsArgs o) "skip".data = natTruthy o.skip) ∧
    (∀ o : TasksOptions,
      hasKey (listTasksArgs o) "listId".data = strTruthy o.listId ∧
      hasKey (listTasksArgs o) "top".data = natTruthy o.top) ∧
    (∀ (query : List Char) (entityTypes : Option (List Char)),
      hasKey (searchArgs query entityTypes) "entityTypes".data =
        strTruthy entityTypes) := by
  refine ⟨fun op f₁ f₂ h => createCacheKey_perm op h, ?_, ?_, ?_, ?_, ?_, ?_, ?_,
    ?_, ?_, ?_, ?_, ?_, ?_⟩ <;>
    intros <;>
    simp [listMailMessagesArgs, listMailFolderMessagesArgs, sendMailArgs,
      createDraftEmailArgs, listCalendarEventsArgs, getCalendarEventArgs,
      getCalendarViewArgs, createCalendarEventArgs, updateCalendarEventArgs,
      deleteCalendarEventArgs, listContactsArgs, listTasksArgs, searchArgs,
      hasKey_append, hasKey_cons, hasKey_guardNat, hasKey_guardStr, hasKey_optField]

/-- Witness for C8: two field lists that are permutations of each other
produce the same cache key. -/
theorem optional_args_presence_witness :
    ([("b".data, some "1".data), ("a".data, some "2".data)] :
        List (List Char × Option (List Char))).Perm
      [("a".data, some "2".data), ("b".data, some "1".data)] ∧
    createCacheKey "mail_messages".data
        [("b".data, some "1".data), ("a".data, some "2".data)] =
      createCacheKey "mail_messages".data
        [("a".data, some "2".data), ("b".data, some "1".data)] :=
  ⟨by decide,
   optional_args_presence.1 "mail_messages".data _ _ (by decide)⟩
